import Mathlib

/-!
Verification development for the PoreMesh block-decomposition and pipeline
orchestration core.  3D numpy arrays are embedded as a shape function
`Fin 3 → Nat` together with a value function on index vectors; numpy slicing
and assignment become case analysis on the index.  The preprocessor
(`add_caps`, `add_padding`, `blockify`, `preprocess_single_block`) is
translated from `src/preprocessor.py`; the pipeline orchestration
(`process_single_block`, the pool map, result collection and the
parallel/sequential volume drivers) from `src/pipeline.py`.  External
capabilities (TIFF loading, mesh extraction) are parameters, as the spec
treats them as external collaborators.
-/

namespace PoreMesh

/-- Index / shape vector for a 3D array: coordinate per numpy axis. -/
abbrev Ix := Fin 3 → Nat

/-- Build an index vector from the three axis coordinates (axis 0, 1, 2). -/
def ix3 (a b c : Nat) : Ix := fun k => if k.val = 0 then a else if k.val = 1 then b else c

/-- A 3D array: a shape and a value at every index vector.  Only values at
in-bounds indices are meaningful. -/
structure Arr3 where
  shape : Ix
  val : Ix → Nat

/-- An index vector lies inside a shape. -/
def inBounds (s : Ix) (i : Ix) : Prop := ∀ k, i k < s k

/-- Array equality as numpy observes it: equal shapes and equal values at
every in-bounds index. -/
def ExtEq (a b : Arr3) : Prop :=
  a.shape = b.shape ∧ ∀ i : Ix, inBounds a.shape i → a.val i = b.val i

/-- Axis names accepted by the preprocessor. -/
inductive Axis
  | z
  | y
  | x
deriving DecidableEq

/-- `Preprocessor.axes_map`: the dictionary sending z, y, x to numpy axes 0, 1, 2. -/
def axesMap : Axis → Fin 3
  | Axis.z => 0
  | Axis.y => 1
  | Axis.x => 2

/-- Python argument merging `arg or default` for an optional integer
argument: `None` and `0` are falsy, so both select the default. -/
def orDefault (arg : Option Nat) (d : Nat) : Nat :=
  match arg with
  | none => d
  | some v => if v = 0 then d else v

/-- `PreprocessingConfig` from `src/preprocessor.py`. -/
structure PreprocessingConfig where
  cap_size : Nat
  cap_axis : Axis
  cap_value : Nat
  padding_size : Nat
  block_size : Nat

/-- The dataclass defaults of `PreprocessingConfig`. -/
def defaultConfig : PreprocessingConfig :=
  { cap_size := 10, cap_axis := Axis.z, cap_value := 255
  , padding_size := 4, block_size := 256 }

/-- `Preprocessor.add_caps`: allocate a zero array whose cap axis is longer
by `2 * cap_size`, write the start cap, copy the data into the middle, then
write the end cap with the slice `[-cap_size:]`.  When the merged cap size is
`0` that final slice is the whole array, so everything is overwritten with
the cap value; otherwise the three regions are start cap, data, end cap. -/
def add_caps (cfg : PreprocessingConfig) (data : Arr3)
    (cap_size : Option Nat) (axis : Option Axis) (value : Option Nat) : Arr3 :=
  let c := orDefault cap_size cfg.cap_size
  let ax := axesMap (axis.getD cfg.cap_axis)
  let v := orDefault value cfg.cap_value
  let d := data.shape ax
  { shape := Function.update data.shape ax (d + 2 * c)
  , val := fun i =>
      if c = 0 ∨ d + c ≤ i ax then v
      else if c ≤ i ax then data.val (Function.update i ax (i ax - c))
      else v }

/-- `Preprocessor.add_padding`: `np.pad` with a constant 0 border of merged
width on every axis. -/
def add_padding (cfg : PreprocessingConfig) (data : Arr3) (pad_size : Option Nat) : Arr3 :=
  let p := orDefault pad_size cfg.padding_size
  { shape := fun k => data.shape k + 2 * p
  , val := fun i =>
      if ∀ k, p ≤ i k ∧ i k < p + data.shape k then data.val (fun k => i k - p) else 0 }

/-- Removing a border of width `p` on every axis, the inverse operation the
spec calls stripping the padding. -/
def strip_padding (p : Nat) (data : Arr3) : Arr3 :=
  { shape := fun k => data.shape k - 2 * p
  , val := fun i => data.val (fun k => i k + p) }

/-- `Preprocessor.preprocess_single_block`: caps then padding, all defaults. -/
def preprocess_single_block (cfg : PreprocessingConfig) (data : Arr3) : Arr3 :=
  add_padding cfg (add_caps cfg data none none none) none

/-- The numpy slice
`data[zi*b:(zi+1)*b, xi*b:(xi+1)*b, yi*b:(yi+1)*b]` taken by `blockify`. -/
def subBlock (data : Arr3) (b zi xi yi : Nat) : Arr3 :=
  { shape := ix3 b b b
  , val := fun i => data.val (ix3 (zi * b + i 0) (xi * b + i 1) (yi * b + i 2)) }

/-- `Preprocessor.blockify`: grid dimensions by floor division, then the
triple nested loop (z outer, x middle, y inner) collecting the capped
sub-blocks in the order of the running index. -/
def blockify (cfg : PreprocessingConfig) (data : Arr3)
    (block_size : Option Nat) (cap_size : Option Nat) (axis : Option Axis) : List Arr3 :=
  let b := orDefault block_size cfg.block_size
  let c := orDefault cap_size cfg.cap_size
  let a := axis.getD cfg.cap_axis
  let nz := data.shape 0 / b
  let nx := data.shape 1 / b
  let ny := data.shape 2 / b
  (List.range nz).flatMap fun zi =>
    (List.range nx).flatMap fun xi =>
      (List.range ny).map fun yi =>
        add_caps cfg (subBlock data b zi xi yi) (some c) (some a) none

/-- Outcome type distinguishing a normal return of `blockify` from the
`ConfigurationError` the spec describes. -/
inductive BlockifyOutcome
  | ok (blocks : List Arr3)
  | configurationError

/-- `Preprocessor.blockify` seen through `BlockifyOutcome`.  The source
contains no validation and no raise statement, so every call returns
normally. -/
def blockifyChecked (cfg : PreprocessingConfig) (data : Arr3)
    (block_size : Option Nat) (cap_size : Option Nat) (axis : Option Axis) : BlockifyOutcome :=
  BlockifyOutcome.ok (blockify cfg data block_size cap_size axis)

/-- Membership of a voxel in the region assigned to grid cell `(zi, xi, yi)`
for block size `b`. -/
def inRegion (b zi xi yi : Nat) (p : Ix) : Prop :=
  zi * b ≤ p 0 ∧ p 0 < (zi + 1) * b ∧
  xi * b ≤ p 1 ∧ p 1 < (xi + 1) * b ∧
  yi * b ≤ p 2 ∧ p 2 < (yi + 1) * b

/-- The tuple `(block_idx, mesh_path, boundary_edges)` returned by the
worker function `_process_single_block`; `mesh_path` is `None` and
`boundary_edges` is `-1` when the task failed. -/
structure TaskResult where
  blockIdx : Nat
  meshPath : Option String
  defectCount : Int
deriving DecidableEq

/-- A task succeeded exactly when it produced a mesh path. -/
def TaskResult.succeeded (r : TaskResult) : Bool := r.meshPath.isSome

/-- The Python format `f"{n:04d}"`: decimal digits left padded with zeros
to width four. -/
def pad4 (n : Nat) : String :=
  let s := toString n
  String.mk (List.replicate (4 - s.length) '0') ++ s

/-- The mesh file path `output_dir / f"block_{block_idx:04d}.stl"`. -/
def meshFileName (output_dir : String) (idx : Nat) : String :=
  output_dir ++ "/block_" ++ pad4 idx ++ ".stl"

/-- The worker function `_process_single_block` of `src/pipeline.py`.  The
external mesh capability (`generate_mesh_from_array`, `test_watertightness`
and `write_mesh` acting on the preprocessed block) is the parameter
`extract`, whose `Except.error` case models an exception raised inside the
try block; the except clause converts it into `(block_idx, None, -1)`. -/
def process_single_block (cfg : PreprocessingConfig) (threshold : Nat)
    (extract : Arr3 → Nat → Except String Int)
    (output_dir : String) (args : Arr3 × Nat) : TaskResult :=
  let processed := preprocess_single_block cfg args.1
  match extract processed threshold with
  | Except.ok edges =>
      { blockIdx := args.2
      , meshPath := some (meshFileName output_dir args.2)
      , defectCount := edges }
  | Except.error _ =>
      { blockIdx := args.2, meshPath := none, defectCount := -1 }

/-- `multiprocessing.Pool.map`: applies the worker to every argument tuple
and returns the results in argument order, regardless of the order in which
the workers complete them. -/
def pool_map (f : α → β) (argsList : List α) : List β := argsList.map f

/-- The `args_list` comprehension of `process_single_volume_parallel`:
one `(block, i)` tuple per block, in `enumerate` order. -/
def args_list (blocks : List Arr3) : List (Arr3 × Nat) :=
  blocks.enum.map fun p => (p.2, p.1)

/-- The result-collection loop of `process_single_volume_parallel`:
append the mesh path when present, and inside that branch count the block
as watertight when its boundary-edge count is zero. -/
def collect_results (results : List TaskResult) : List String × Nat :=
  results.foldl
    (fun acc r =>
      match r.meshPath with
      | some p => (acc.1 ++ [p], if r.defectCount = 0 then acc.2 + 1 else acc.2)
      | none => acc)
    ([], 0)

/-- The `PipelineResult` dataclass.  `mesh_quality` is the dict embedded as
an association list; `processing_time` is the elapsed wall-clock value,
which the failure branches set to `0`. -/
structure PipelineResult where
  input_path : String
  output_meshes : List String
  processing_time : Nat
  mesh_quality : List (String × Nat)
  success : Bool
  error_message : String
deriving DecidableEq

/-- `MeshPipeline.process_single_volume_parallel`.  The external volume
source is `loadResult` (the outcome of `DataLoader.load_tif`, an error
modelling a raised exception) and `validate` (`DataLoader.validate_data`);
`elapsed` is the measured wall-clock time of the success path.  The outer
try/except converts any pipeline-level failure into a `PipelineResult` with
`success = false`, the exception message, empty meshes, empty quality dict
and zero processing time. -/
def process_single_volume_parallel (cfg : PreprocessingConfig) (threshold : Nat)
    (loadResult : Except String Arr3) (validate : Arr3 → Bool)
    (extract : Arr3 → Nat → Except String Int)
    (input_path output_dir : String) (elapsed : Nat) : PipelineResult :=
  match loadResult with
  | Except.error e =>
      { input_path := input_path, output_meshes := [], processing_time := 0
      , mesh_quality := [], success := false, error_message := e }
  | Except.ok data =>
      if validate data = false then
        { input_path := input_path, output_meshes := [], processing_time := 0
        , mesh_quality := [], success := false
        , error_message := "Invalid data format" }
      else
        let blocks := blockify cfg data none none none
        let results :=
          pool_map (process_single_block cfg threshold extract output_dir) (args_list blocks)
        let collected := collect_results results
        { input_path := input_path
        , output_meshes := collected.1
        , processing_time := elapsed
        , mesh_quality :=
            [("total_blocks", blocks.length), ("watertight_blocks", collected.2)]
        , success := true
        , error_message := "" }

/-- The per-block loop of `_process_single_volume_sequential`: preprocess,
extract, count watertightness, persist, append the path.  There is no
per-block exception handler, so an extraction failure aborts the loop and
propagates as `Except.error`. -/
def sequential_loop (cfg : PreprocessingConfig) (threshold : Nat)
    (extract : Arr3 → Nat → Except String Int) (output_dir : String)
    (blocks : List Arr3) : Except String (List String × Nat) :=
  blocks.enum.foldlM
    (fun acc p =>
      let processed := preprocess_single_block cfg p.2
      match extract processed threshold with
      | Except.ok edges =>
          Except.ok
            (acc.1 ++ [meshFileName output_dir p.1],
             if edges = 0 then acc.2 + 1 else acc.2)
      | Except.error e => Except.error e)
    ([], 0)

/-- `MeshPipeline._process_single_volume_sequential`, with the same external
parameters as the parallel driver. -/
def process_single_volume_sequential (cfg : PreprocessingConfig) (threshold : Nat)
    (loadResult : Except String Arr3) (validate : Arr3 → Bool)
    (extract : Arr3 → Nat → Except String Int)
    (input_path output_dir : String) (elapsed : Nat) : PipelineResult :=
  match loadResult with
  | Except.error e =>
      { input_path := input_path, output_meshes := [], processing_time := 0
      , mesh_quality := [], success := false, error_message := e }
  | Except.ok data =>
      if validate data = false then
        { input_path := input_path, output_meshes := [], processing_time := 0
        , mesh_quality := [], success := false
        , error_message := "Invalid data format" }
      else
        let blocks := blockify cfg data none none none
        match sequential_loop cfg threshold extract output_dir blocks with
        | Except.error e =>
            { input_path := input_path, output_meshes := [], processing_time := 0
            , mesh_quality := [], success := false, error_message := e }
        | Except.ok collected =>
            { input_path := input_path
            , output_meshes := collected.1
            , processing_time := elapsed
            , mesh_quality :=
                [("total_blocks", blocks.length), ("watertight_blocks", collected.2)]
            , success := true
            , error_message := "" }

/-- `MeshPipeline.process_single_volume`: dispatch on `use_parallel`. -/
def process_single_volume (use_parallel : Bool) (cfg : PreprocessingConfig) (threshold : Nat)
    (loadResult : Except String Arr3) (validate : Arr3 → Bool)
    (extract : Arr3 → Nat → Except String Int)
    (input_path output_dir : String) (elapsed : Nat) : PipelineResult :=
  if use_parallel then
    process_single_volume_parallel cfg threshold loadResult validate extract
      input_path output_dir elapsed
  else
    process_single_volume_sequential cfg threshold loadResult validate extract
      input_path output_dir elapsed

/-- The block-index-to-block assignment the parallel path submits to the
pool: the `args_list` built from `blockify`. -/
def parallel_task_assignment (cfg : PreprocessingConfig) (data : Arr3) : List (Arr3 × Nat) :=
  args_list (blockify cfg data none none none)

/-- The block-index-to-block assignment the sequential path iterates over:
`enumerate(blocks)`. -/
def sequential_task_assignment (cfg : PreprocessingConfig) (data : Arr3) : List (Nat × Arr3) :=
  (blockify cfg data none none none).enum

/-! Concrete inputs used by witnesses. -/

/-- A concrete 2x2x2 volume with distinct values. -/
def volW : Arr3 :=
  { shape := ix3 2 2 2, val := fun i => 1 + i 0 + 2 * i 1 + 4 * i 2 }

/-- A concrete 1x1x1 volume. -/
def vol111 : Arr3 := { shape := ix3 1 1 1, val := fun _ => 1 }

/-! Helper lemmas. -/

theorem orDefault_of_pos (n d : Nat) (h : 0 < n) : orDefault (some n) d = n := by
  show (if n = 0 then d else n) = n
  rw [if_neg (Nat.pos_iff_ne_zero.mp h)]

/-- C3: for cap size c > 0 and cap value v > 0, `add_caps` extends the shape by
2*c on the cap axis only, fills the first and last c slices along that axis
with v, and embeds the original block unchanged (so the non-cap axes are
untouched). -/
theorem C3_add_caps_correct (cfg : PreprocessingConfig) (data : Arr3)
    (c : Nat) (A : Axis) (v : Nat) (hc : 0 < c) (hv : 0 < v) :
    (add_caps cfg data (some c) (some A) (some v)).shape
        = Function.update data.shape (axesMap A) (data.shape (axesMap A) + 2 * c)
    ∧ (∀ i : Ix, inBounds (add_caps cfg data (some c) (some A) (some v)).shape i →
        i (axesMap A) < c ∨ c + data.shape (axesMap A) ≤ i (axesMap A) →
        (add_caps cfg data (some c) (some A) (some v)).val i = v)
    ∧ (∀ i : Ix, inBounds data.shape i →
        (add_caps cfg data (some c) (some A) (some v)).val
            (Function.update i (axesMap A) (i (axesMap A) + c)) = data.val i) := by
  have hc0 : orDefault (some c) cfg.cap_size = c := orDefault_of_pos c _ hc
  have hv0 : orDefault (some v) cfg.cap_value = v := orDefault_of_pos v _ hv
  refine ⟨?_, ?_, ?_⟩
  · simp only [add_caps, Option.getD_some, hc0, hv0]
  · intro i _ hcap
    simp only [add_caps, Option.getD_some, hc0, hv0]
    rcases hcap with hlo | hhi
    · rw [if_neg (by omega), if_neg (by omega)]
    · rw [if_pos (Or.inr (by omega))]
  · intro i hib
    have hax := hib (axesMap A)
    simp only [add_caps, Option.getD_some, hc0, hv0, Function.update_same]
    rw [if_neg (by omega), if_pos (by omega)]
    have harg : i (axesMap A) + c - c = i (axesMap A) := by omega
    rw [harg, Function.update_idem, Function.update_eq_self]

/-- Witness for C3 at a concrete block, cap size 2, axis y, value 7. -/
theorem C3_add_caps_correct_witness :
    0 < 2 ∧ 0 < 7 ∧
    ((add_caps defaultConfig volW (some 2) (some Axis.y) (some 7)).shape
        = Function.update volW.shape (axesMap Axis.y) (volW.shape (axesMap Axis.y) + 2 * 2)
    ∧ (∀ i : Ix, inBounds (add_caps defaultConfig volW (some 2) (some Axis.y) (some 7)).shape i →
        i (axesMap Axis.y) < 2 ∨ 2 + volW.shape (axesMap Axis.y) ≤ i (axesMap Axis.y) →
        (add_caps defaultConfig volW (some 2) (some Axis.y) (some 7)).val i = 7)
    ∧ (∀ i : Ix, inBounds volW.shape i →
        (add_caps defaultConfig volW (some 2) (some Axis.y) (some 7)).val
            (Function.update i (axesMap Axis.y) (i (axesMap Axis.y) + 2)) = volW.val i)) :=
  ⟨by decide, by decide,
    C3_add_caps_correct defaultConfig volW 2 Axis.y 7 (by decide) (by decide)⟩

/-- C4: for padding p > 0, `add_padding` grows every axis by 2*p, zeroes the
border of width p, embeds the capped block unchanged, and stripping the
border recovers exactly the original array. -/
theorem C4_add_padding_correct (cfg : PreprocessingConfig) (data : Arr3)
    (p : Nat) (hp : 0 < p) :
    (∀ k, (add_padding cfg data (some p)).shape k = data.shape k + 2 * p)
    ∧ (∀ i : Ix, inBounds (add_padding cfg data (some p)).shape i →
        (∃ k, i k < p ∨ p + data.shape k ≤ i k) →
        (add_padding cfg data (some p)).val i = 0)
    ∧ (∀ i : Ix, inBounds data.shape i →
        (add_padding cfg data (some p)).val (fun k => i k + p) = data.val i)
    ∧ ExtEq (strip_padding p (add_padding cfg data (some p))) data := by
  have hp0 : orDefault (some p) cfg.padding_size = p := orDefault_of_pos p _ hp
  refine ⟨fun k => by simp only [add_padding, hp0], ?_, ?_, ?_, ?_⟩
  · intro i hib hk
    simp only [add_padding, hp0] at hib ⊢
    rcases hk with ⟨k, hk⟩
    rw [if_neg]
    intro hall
    have := hall k
    omega
  · intro i hib
    simp only [add_padding, hp0]
    rw [if_pos (fun k => by have := hib k; omega)]
    exact congrArg data.val (funext fun k => by omega)
  · funext k
    show (add_padding cfg data (some p)).shape k - 2 * p = data.shape k
    simp [add_padding, hp0]
  · intro i hib
    have hin : ∀ k, i k < data.shape k := by
      intro k
      have h1 := hib k
      simp [strip_padding, add_padding, hp0] at h1
      omega
    show (add_padding cfg data (some p)).val (fun k => i k + p) = data.val i
    simp only [add_padding, hp0]
    rw [if_pos (fun k => by have := hin k; omega)]
    exact congrArg data.val (funext fun k => by omega)

/-- Witness for C4 at a concrete block and padding 1. -/
theorem C4_add_padding_correct_witness :
    0 < 1 ∧ ExtEq (strip_padding 1 (add_padding defaultConfig volW (some 1))) volW :=
  ⟨by decide, (C4_add_padding_correct defaultConfig volW 1 (by decide)).2.2.2⟩

/-- C9: optional arguments are merged with Python `or`, so an explicit 0 for
cap size, cap value or padding size is discarded in favour of the
configured default, and when that default is non-zero the effective value
can never be 0. -/
theorem C9_zero_args_use_default (cfg : PreprocessingConfig) (data : Arr3)
    (A : Option Axis) (v s : Option Nat) :
    add_caps cfg data (some 0) A v = add_caps cfg data none A v
    ∧ add_caps cfg data s A (some 0) = add_caps cfg data s A none
    ∧ add_padding cfg data (some 0) = add_padding cfg data none
    ∧ (cfg.cap_size ≠ 0 → ∀ a : Option Nat, orDefault a cfg.cap_size ≠ 0)
    ∧ (cfg.cap_value ≠ 0 → ∀ a : Option Nat, orDefault a cfg.cap_value ≠ 0)
    ∧ (cfg.padding_size ≠ 0 → ∀ a : Option Nat, orDefault a cfg.padding_size ≠ 0) := by
  have hne : ∀ d : Nat, d ≠ 0 → ∀ a : Option Nat, orDefault a d ≠ 0 := by
    intro d hd a
    match a with
    | none => simpa [orDefault] using hd
    | some w =>
        simp only [orDefault]
        split
        · exact hd
        · assumption
  exact ⟨rfl, rfl, rfl, hne cfg.cap_size, hne cfg.cap_value, hne cfg.padding_size⟩

/-- Witness for C9: with the default configuration (cap size 10), an
explicit cap size of 0 still yields a non-zero effective cap size. -/
theorem C9_zero_args_use_default_witness :
    defaultConfig.cap_size ≠ 0 ∧ orDefault (some 0) defaultConfig.cap_size ≠ 0 :=
  ⟨by decide,
    (C9_zero_args_use_default defaultConfig volW none none none).2.2.2.1
      (by decide) (some 0)⟩

theorem orDefault_none (d : Nat) : orDefault none d = d := rfl

/-- C2 counterexample: with blockSize 2 on a 1x1x1 volume — blockSize
exceeding every dimension — `blockify` is not rejected with a
ConfigurationError: it returns normally with zero blocks.  The source
contains no validation and no ConfigurationError class at all. -/
theorem C2_counterexample_no_configuration_error :
    blockifyChecked defaultConfig vol111 (some 2) none none = BlockifyOutcome.ok []
    ∧ blockifyChecked defaultConfig vol111 (some 2) none none
        ≠ BlockifyOutcome.configurationError := by
  have h : blockifyChecked defaultConfig vol111 (some 2) none none
      = BlockifyOutcome.ok [] := rfl
  refine ⟨h, ?_⟩
  rw [h]
  exact fun hc => BlockifyOutcome.noConfusion hc

/-- C2 (amended): when blockSize exceeds at least one volume dimension,
`blockify` does not raise any error; it silently returns zero blocks (so no
task is ever scheduled, but the config is not rejected). -/
theorem C2_oversized_block_size_yields_no_blocks (cfg : PreprocessingConfig)
    (data : Arr3) (b : Nat) (hb : 0 < b)
    (hex : data.shape 0 < b ∨ data.shape 1 < b ∨ data.shape 2 < b) :
    blockifyChecked cfg data (some b) none none = BlockifyOutcome.ok [] := by
  have hb0 : orDefault (some b) cfg.block_size = b := orDefault_of_pos b _ hb
  unfold blockifyChecked
  congr 1
  simp only [blockify, hb0]
  rcases hex with h | h | h
  · rw [Nat.div_eq_of_lt h]
    simp
  · rw [Nat.div_eq_of_lt h]
    simp
  · rw [Nat.div_eq_of_lt h]
    simp

/-- Witness for the amended C2 at blockSize 2 on a 1x1x1 volume. -/
theorem C2_oversized_block_size_yields_no_blocks_witness :
    (0 < 2 ∧ (vol111.shape 0 < 2 ∨ vol111.shape 1 < 2 ∨ vol111.shape 2 < 2))
    ∧ blockifyChecked defaultConfig vol111 (some 2) none none = BlockifyOutcome.ok [] :=
  ⟨⟨by decide, Or.inl (by decide)⟩,
    C2_oversized_block_size_yields_no_blocks defaultConfig vol111 2 (by decide)
      (Or.inl (by decide))⟩

/-- Length of a flat map over `List.range` when every piece has length m. -/
theorem flatMap_range_length (n m : Nat) (f : Nat → List α)
    (hf : ∀ i, i < n → (f i).length = m) :
    ((List.range n).flatMap f).length = n * m := by
  induction n with
  | zero => simp
  | succ k ih =>
      rw [List.range_succ, List.flatMap_append,
        List.length_append, ih (fun i hi => hf i (by omega))]
      have h1 : ([k].flatMap f).length = m := by
        simp [hf k (by omega)]
      rw [h1]
      ring

/-- Element access in a flat map over `List.range` with equal piece
lengths: position i*m + j lands at offset j of piece i. -/
theorem flatMap_range_getElem (n m : Nat) (f : Nat → List α)
    (hf : ∀ i, i < n → (f i).length = m) (i j : Nat) (hi : i < n) (hj : j < m) :
    ((List.range n).flatMap f)[i * m + j]? = (f i)[j]? := by
  induction n with
  | zero => omega
  | succ k ih =>
      rw [List.range_succ, List.flatMap_append]
      have hlen : ((List.range k).flatMap f).length = k * m :=
        flatMap_range_length k m f (fun t ht => hf t (by omega))
      rw [List.getElem?_append]
      by_cases hik : i < k
      · have hidx : i * m + j < ((List.range k).flatMap f).length := by
          rw [hlen]
          have h2 : (i + 1) * m ≤ k * m := Nat.mul_le_mul_right m hik
          rw [Nat.succ_mul] at h2
          omega
        rw [if_pos hidx]
        exact ih (fun t ht => hf t (by omega)) hik
      · have hik2 : i = k := by omega
        subst hik2
        have hge : ¬ i * m + j < ((List.range i).flatMap f).length := by
          rw [hlen]
          omega
        rw [if_neg hge, hlen]
        have hrest : i * m + j - i * m = j := by omega
        rw [hrest]
        simp

/-- C1: `blockify` with block size b > 0 produces exactly nz*nx*ny blocks
(nz, nx, ny the floor quotients of the dimensions by b), enumerated
row-major with z outer, x middle, y inner, so linear index
zi*nx*ny + xi*ny + yi holds the capped sub-block cut from the voxel region
[zi*b,(zi+1)*b) x [xi*b,(xi+1)*b) x [yi*b,(yi+1)*b); those regions are
pairwise disjoint and remainder voxels lie in no region. -/
theorem C1_blockify_partition (cfg : PreprocessingConfig) (data : Arr3)
    (b : Nat) (hb : 0 < b) :
    ((blockify cfg data (some b) none none).length
        = data.shape 0 / b * (data.shape 1 / b) * (data.shape 2 / b))
    ∧ (∀ zi xi yi, zi < data.shape 0 / b → xi < data.shape 1 / b →
        yi < data.shape 2 / b →
        (blockify cfg data (some b) none none)[zi * (data.shape 1 / b) * (data.shape 2 / b)
            + xi * (data.shape 2 / b) + yi]?
          = some (add_caps cfg (subBlock data b zi xi yi)
              (some cfg.cap_size) (some cfg.cap_axis) none))
    ∧ (∀ p : Ix, ∀ zi xi yi zi2 xi2 yi2,
        inRegion b zi xi yi p → inRegion b zi2 xi2 yi2 p →
        zi = zi2 ∧ xi = xi2 ∧ yi = yi2)
    ∧ (∀ p : Ix,
        (data.shape 0 / b * b ≤ p 0 ∨ data.shape 1 / b * b ≤ p 1 ∨
         data.shape 2 / b * b ≤ p 2) →
        ∀ zi xi yi, zi < data.shape 0 / b → xi < data.shape 1 / b →
          yi < data.shape 2 / b → ¬ inRegion b zi xi yi p) := by
  have hb0 : orDefault (some b) cfg.block_size = b := orDefault_of_pos b _ hb
  set nz := data.shape 0 / b with hnz
  set nx := data.shape 1 / b with hnx
  set ny := data.shape 2 / b with hny
  have hF : ∀ zi, zi < nz →
      ((List.range nx).flatMap fun xi =>
        (List.range ny).map fun yi =>
          add_caps cfg (subBlock data b zi xi yi)
            (some cfg.cap_size) (some cfg.cap_axis) none).length = nx * ny := by
    intro zi _
    exact flatMap_range_length nx ny _ (fun xi _ => by simp)
  have hunfold : blockify cfg data (some b) none none
      = (List.range nz).flatMap fun zi =>
          (List.range nx).flatMap fun xi =>
            (List.range ny).map fun yi =>
              add_caps cfg (subBlock data b zi xi yi)
                (some cfg.cap_size) (some cfg.cap_axis) none := by
    simp only [blockify, hb0, orDefault_none, Option.getD_none, hnz, hnx, hny]
  refine ⟨?_, ?_, ?_, ?_⟩
  · rw [hunfold, flatMap_range_length nz (nx * ny) _ hF]
    ring
  · intro zi xi yi hzi hxi hyi
    have hidx : zi * nx * ny + xi * ny + yi = zi * (nx * ny) + (xi * ny + yi) := by
      ring
    have hin : xi * ny + yi < nx * ny := by
      have h2 : (xi + 1) * ny ≤ nx * ny := Nat.mul_le_mul_right ny hxi
      rw [Nat.succ_mul] at h2
      omega
    rw [hunfold, hidx, flatMap_range_getElem nz (nx * ny) _ hF zi (xi * ny + yi) hzi hin,
      flatMap_range_getElem nx ny _ (fun t _ => by simp) xi yi hxi hyi,
      List.getElem?_map, List.getElem?_range hyi]
    rfl
  · intro p zi xi yi zi2 xi2 yi2 h1 h2
    obtain ⟨a1, a2, a3, a4, a5, a6⟩ := h1
    obtain ⟨c1, c2, c3, c4, c5, c6⟩ := h2
    refine ⟨?_, ?_, ?_⟩
    · rw [← Nat.div_eq_of_lt_le a1 (by rw [Nat.succ_mul] at a2 ⊢; omega),
        ← Nat.div_eq_of_lt_le c1 (by rw [Nat.succ_mul] at c2 ⊢; omega)]
    · rw [← Nat.div_eq_of_lt_le a3 (by rw [Nat.succ_mul] at a4 ⊢; omega),
        ← Nat.div_eq_of_lt_le c3 (by rw [Nat.succ_mul] at c4 ⊢; omega)]
    · rw [← Nat.div_eq_of_lt_le a5 (by rw [Nat.succ_mul] at a6 ⊢; omega),
        ← Nat.div_eq_of_lt_le c5 (by rw [Nat.succ_mul] at c6 ⊢; omega)]
  · intro p hp zi xi yi hzi hxi hyi hreg
    obtain ⟨a1, a2, a3, a4, a5, a6⟩ := hreg
    rcases hp with h | h | h
    · have h2 : (zi + 1) * b ≤ nz * b := Nat.mul_le_mul_right b hzi
      rw [Nat.succ_mul] at h2 a2
      omega
    · have h2 : (xi + 1) * b ≤ nx * b := Nat.mul_le_mul_right b hxi
      rw [Nat.succ_mul] at h2 a4
      omega
    · have h2 : (yi + 1) * b ≤ ny * b := Nat.mul_le_mul_right b hyi
      rw [Nat.succ_mul] at h2 a6
      omega

/-- Witness for C1: one block on a 1x1x1 volume with block size 1. -/
theorem C1_blockify_partition_witness :
    0 < 1 ∧ (blockify defaultConfig vol111 (some 1) none none).length
      = vol111.shape 0 / 1 * (vol111.shape 1 / 1) * (vol111.shape 2 / 1) :=
  ⟨by decide, (C1_blockify_partition defaultConfig vol111 1 (by decide)).1⟩

/-- Map commutes with removing the element at an index. -/
theorem map_eraseIdx (f : α → β) (l : List α) (i : Nat) :
    (l.eraseIdx i).map f = (l.map f).eraseIdx i := by
  induction l generalizing i with
  | nil => simp
  | cons a t ih =>
      cases i with
      | zero => simp [List.eraseIdx]
      | succ j => simp [List.eraseIdx, ih]

/-- C5: when the extraction step of exactly one submitted task raises, the
pool still returns one result per task; the failing task is converted at
the task boundary into a result with null mesh path and defect count -1,
every sibling task still yields its mesh result, and removing the failing
task from the submitted list leaves the remaining results unchanged. -/
theorem C5_failure_isolation (cfg : PreprocessingConfig) (threshold : Nat)
    (extract : Arr3 → Nat → Except String Int) (output_dir : String)
    (argsL : List (Arr3 × Nat)) (k : Nat) (a : Arr3 × Nat) (err : String)
    (ha : argsL[k]? = some a)
    (hfail : extract (preprocess_single_block cfg a.1) threshold = Except.error err)
    (hok : ∀ j b2, j ≠ k → argsL[j]? = some b2 →
        ∃ c, extract (preprocess_single_block cfg b2.1) threshold = Except.ok c) :
    ((pool_map (process_single_block cfg threshold extract output_dir) argsL).length
        = argsL.length)
    ∧ (pool_map (process_single_block cfg threshold extract output_dir) argsL)[k]?
        = some { blockIdx := a.2, meshPath := none, defectCount := -1 }
    ∧ (∀ j b2, j ≠ k → argsL[j]? = some b2 →
        ∃ c, (pool_map (process_single_block cfg threshold extract output_dir) argsL)[j]?
          = some { blockIdx := b2.2
                 , meshPath := some (meshFileName output_dir b2.2)
                 , defectCount := c })
    ∧ (pool_map (process_single_block cfg threshold extract output_dir) argsL).eraseIdx k
        = pool_map (process_single_block cfg threshold extract output_dir)
            (argsL.eraseIdx k) := by
  refine ⟨by simp [pool_map], ?_, ?_, ?_⟩
  · rw [pool_map, List.getElem?_map, ha]
    simp [process_single_block, hfail]
  · intro j b2 hj hb
    obtain ⟨c, hc⟩ := hok j b2 hj hb
    refine ⟨c, ?_⟩
    rw [pool_map, List.getElem?_map, hb]
    simp [process_single_block, hc]
  · rw [pool_map, pool_map, map_eraseIdx]

/-- A second concrete block whose preprocessed shape differs from that of
`vol111`, letting an extraction stub fail on exactly one of the two. -/
def volB : Arr3 := { shape := ix3 2 1 1, val := fun _ => 1 }

/-- Two concrete task units. -/
def exArgs : List (Arr3 × Nat) := [(vol111, 0), (volB, 1)]

/-- Extraction stub that raises exactly on the preprocessed `vol111` block
(whose z extent is 1 + 2*10 + 2*4 = 29 under the default config). -/
def exExtract : Arr3 → Nat → Except String Int := fun a _ =>
  if a.shape 0 = 29 then Except.error "boom" else Except.ok (0 : Int)

/-- Witness for C5: two tasks, the first constructed to fail. -/
theorem C5_failure_isolation_witness :
    ((pool_map (process_single_block defaultConfig 0 exExtract "out") exArgs).length
        = exArgs.length)
    ∧ (pool_map (process_single_block defaultConfig 0 exExtract "out") exArgs)[0]?
        = some { blockIdx := (vol111, (0 : Nat)).2, meshPath := none, defectCount := -1 }
    ∧ (∀ j b2, j ≠ 0 → exArgs[j]? = some b2 →
        ∃ c, (pool_map (process_single_block defaultConfig 0 exExtract "out") exArgs)[j]?
          = some { blockIdx := b2.2
                 , meshPath := some (meshFileName "out" b2.2)
                 , defectCount := c })
    ∧ (pool_map (process_single_block defaultConfig 0 exExtract "out") exArgs).eraseIdx 0
        = pool_map (process_single_block defaultConfig 0 exExtract "out")
            (exArgs.eraseIdx 0) :=
  C5_failure_isolation defaultConfig 0 exExtract "out" exArgs 0 (vol111, 0) "boom"
    rfl rfl
    (by
      intro j b2 hj hb
      rcases j with _ | j1
      · exact absurd rfl hj
      rcases j1 with _ | j2
      · rw [show exArgs[1]? = some (volB, 1) from rfl] at hb
        cases hb
        exact ⟨0, rfl⟩
      · rw [List.getElem?_eq_none (by simp [exArgs])] at hb
        cases hb)

/-- The task-result list the parallel driver computes for a loaded volume:
the pool map over the enumerated blocks. -/
def volume_results (cfg : PreprocessingConfig) (threshold : Nat)
    (extract : Arr3 → Nat → Except String Int) (output_dir : String)
    (data : Arr3) : List TaskResult :=
  pool_map (process_single_block cfg threshold extract output_dir)
    (args_list (blockify cfg data none none none))

/-- The collection loop equals a filterMap of the mesh paths paired with a
count of the results that carry a path and zero boundary edges. -/
theorem collect_results_spec (results : List TaskResult) :
    collect_results results
      = (results.filterMap (fun r => r.meshPath),
         results.countP (fun r => r.meshPath.isSome && r.defectCount == 0)) := by
  have hgo : ∀ acc : List String × Nat,
      results.foldl
        (fun acc r =>
          match r.meshPath with
          | some p => (acc.1 ++ [p], if r.defectCount = 0 then acc.2 + 1 else acc.2)
          | none => acc) acc
      = (acc.1 ++ results.filterMap (fun r => r.meshPath),
         acc.2 + results.countP (fun r => r.meshPath.isSome && r.defectCount == 0)) := by
    induction results with
    | nil => intro acc; simp
    | cons r t ih =>
        intro acc
        rw [List.foldl_cons, ih]
        cases hm : r.meshPath with
        | none => simp [List.filterMap_cons, List.countP_cons, hm]
        | some q =>
            by_cases hd : r.defectCount = 0
            · simp [List.filterMap_cons, List.countP_cons, hm, hd]
              omega
            · simp [List.filterMap_cons, List.countP_cons, hm, hd]
  rw [collect_results, hgo ([], 0)]
  simp

/-- Every result the worker produces either carries a mesh path, or has no
path and defect count -1. -/
theorem volume_results_shape (cfg : PreprocessingConfig) (threshold : Nat)
    (extract : Arr3 → Nat → Except String Int) (output_dir : String) (data : Arr3) :
    ∀ r ∈ volume_results cfg threshold extract output_dir data,
      (∃ c, r = { blockIdx := r.blockIdx
                , meshPath := some (meshFileName output_dir r.blockIdx)
                , defectCount := c })
      ∨ r = { blockIdx := r.blockIdx, meshPath := none, defectCount := -1 } := by
  intro r hr
  rw [volume_results, pool_map] at hr
  obtain ⟨a, _, rfl⟩ := List.mem_map.mp hr
  rw [process_single_block]
  cases extract (preprocess_single_block cfg a.1) threshold with
  | ok c => exact Or.inl ⟨c, rfl⟩
  | error e => exact Or.inr rfl

/-- The block indices carried by the parallel results are 0, 1, 2, ... in
order. -/
theorem volume_results_indices (cfg : PreprocessingConfig) (threshold : Nat)
    (extract : Arr3 → Nat → Except String Int) (output_dir : String) (data : Arr3) :
    (volume_results cfg threshold extract output_dir data).map (fun r => r.blockIdx)
      = List.range (blockify cfg data none none none).length := by
  rw [volume_results, pool_map, args_list, List.map_map, List.map_map]
  have hcomp : ((fun r : TaskResult => r.blockIdx)
        ∘ process_single_block cfg threshold extract output_dir)
        ∘ (fun p : Nat × Arr3 => (p.2, p.1))
      = fun p : Nat × Arr3 => p.1 := by
    funext p
    show (process_single_block cfg threshold extract output_dir (p.2, p.1)).blockIdx = p.1
    rw [process_single_block]
    cases extract (preprocess_single_block cfg p.2) threshold <;> rfl
  rw [hcomp, List.enum_map_fst]

/-- C6: on a successful parallel run, total_blocks equals the number of
submitted task units, watertight_blocks equals the number of task results
with defect count 0, and output_meshes is exactly the non-null mesh paths
of succeeded tasks, in ascending block-index order. -/
theorem C6_aggregation_correct (cfg : PreprocessingConfig) (threshold : Nat)
    (loadResult : Except String Arr3) (validate : Arr3 → Bool)
    (extract : Arr3 → Nat → Except String Int)
    (input_path output_dir : String) (elapsed : Nat) (data : Arr3)
    (hload : loadResult = Except.ok data) (hvalid : validate data = true) :
    (List.lookup "total_blocks"
        (process_single_volume_parallel cfg threshold loadResult validate extract
          input_path output_dir elapsed).mesh_quality
      = some (args_list (blockify cfg data none none none)).length)
    ∧ (List.lookup "watertight_blocks"
        (process_single_volume_parallel cfg threshold loadResult validate extract
          input_path output_dir elapsed).mesh_quality
      = some ((volume_results cfg threshold extract output_dir data).countP
          (fun r => r.defectCount == 0)))
    ∧ ((process_single_volume_parallel cfg threshold loadResult validate extract
          input_path output_dir elapsed).output_meshes
      = (volume_results cfg threshold extract output_dir data).filterMap
          (fun r => if r.succeeded then r.meshPath else none))
    ∧ List.Pairwise (· < ·)
        (((volume_results cfg threshold extract output_dir data).filter
            (fun r => r.succeeded)).map (fun r => r.blockIdx)) := by
  subst hload
  have hrun : process_single_volume_parallel cfg threshold (Except.ok data) validate extract
        input_path output_dir elapsed
      = { input_path := input_path
        , output_meshes :=
            (collect_results (volume_results cfg threshold extract output_dir data)).1
        , processing_time := elapsed
        , mesh_quality :=
            [("total_blocks", (blockify cfg data none none none).length),
             ("watertight_blocks",
              (collect_results (volume_results cfg threshold extract output_dir data)).2)]
        , success := true
        , error_message := "" } := by
    rw [process_single_volume_parallel]
    rw [hvalid]
    rfl
  have hspec := collect_results_spec (volume_results cfg threshold extract output_dir data)
  have hpw : List.Pairwise (fun r s : TaskResult => r.blockIdx < s.blockIdx)
      (volume_results cfg threshold extract output_dir data) := by
    rw [← List.pairwise_map (f := fun r : TaskResult => r.blockIdx)]
    rw [volume_results_indices]
    exact List.pairwise_lt_range _
  refine ⟨?_, ?_, ?_, ?_⟩
  · rw [hrun]
    show some (blockify cfg data none none none).length = _
    rw [args_list, List.length_map, List.enum_length]
  · rw [hrun]
    show some (collect_results (volume_results cfg threshold extract output_dir data)).2 = _
    rw [hspec]
    congr 1
    refine List.countP_congr ?_
    intro r hr
    rcases volume_results_shape cfg threshold extract output_dir data r hr with ⟨c, hc⟩ | hc
    · conv_lhs => rw [hc]
      conv_rhs => rw [hc]
      simp
    · conv_lhs => rw [hc]
      conv_rhs => rw [hc]
      simp
  · rw [hrun]
    show (collect_results (volume_results cfg threshold extract output_dir data)).1 = _
    rw [hspec]
    have hfun : (fun r : TaskResult => if r.succeeded then r.meshPath else none)
        = fun r : TaskResult => r.meshPath := by
      funext r
      cases hm : r.meshPath with
      | none => simp [TaskResult.succeeded, hm]
      | some q => simp [TaskResult.succeeded, hm]
    rw [hfun]
  · have hsub : ((volume_results cfg threshold extract output_dir data).filter
        (fun r => r.succeeded)).Sublist
        (volume_results cfg threshold extract output_dir data) :=
      List.filter_sublist _
    exact List.pairwise_map.mpr (hpw.sublist hsub)

/-- A small configuration producing exactly one block from `vol111`. -/
def cfgB : PreprocessingConfig :=
  { cap_size := 1, cap_axis := Axis.z, cap_value := 9, padding_size := 1, block_size := 1 }

/-- Witness for C6 on a one-block volume with an always-succeeding
extraction stub. -/
theorem C6_aggregation_correct_witness :
    List.lookup "total_blocks"
        (process_single_volume_parallel cfgB 0 (Except.ok vol111) (fun _ => true)
          (fun _ _ => Except.ok 0) "in" "out" 5).mesh_quality
      = some (args_list (blockify cfgB vol111 none none none)).length :=
  (C6_aggregation_correct cfgB 0 (Except.ok vol111) (fun _ => true)
    (fun _ _ => Except.ok 0) "in" "out" 5 vol111 rfl rfl).1

/-- The failure record both drivers build in their except branch. -/
def failureResult (input_path e : String) : PipelineResult :=
  { input_path := input_path, output_meshes := [], processing_time := 0
  , mesh_quality := [], success := false, error_message := e }

/-- A load error makes either driver return the failure record. -/
theorem pipeline_load_error_result (use_parallel : Bool)
    (cfg : PreprocessingConfig) (threshold : Nat)
    (validate : Arr3 → Bool) (extract : Arr3 → Nat → Except String Int)
    (input_path output_dir : String) (elapsed : Nat) (e : String) :
    process_single_volume use_parallel cfg threshold (Except.error e) validate extract
        input_path output_dir elapsed = failureResult input_path e := by
  cases use_parallel <;> rfl

/-- A validation failure makes either driver return the failure record with
the ValueError message. -/
theorem pipeline_invalid_data_result (use_parallel : Bool)
    (cfg : PreprocessingConfig) (threshold : Nat) (data : Arr3)
    (validate : Arr3 → Bool) (extract : Arr3 → Nat → Except String Int)
    (input_path output_dir : String) (elapsed : Nat)
    (hv : validate data = false) :
    process_single_volume use_parallel cfg threshold (Except.ok data) validate extract
        input_path output_dir elapsed = failureResult input_path "Invalid data format" := by
  cases use_parallel <;>
    simp [process_single_volume, process_single_volume_parallel,
      process_single_volume_sequential, hv, failureResult]

/-- An exception escaping the sequential per-block loop makes the
sequential driver return the failure record with its message. -/
theorem pipeline_sequential_error_result (cfg : PreprocessingConfig) (threshold : Nat)
    (data : Arr3) (validate : Arr3 → Bool) (extract : Arr3 → Nat → Except String Int)
    (input_path output_dir : String) (elapsed : Nat) (e : String)
    (hv : validate data = true)
    (hseq : sequential_loop cfg threshold extract output_dir
        (blockify cfg data none none none) = Except.error e) :
    process_single_volume false cfg threshold (Except.ok data) validate extract
        input_path output_dir elapsed = failureResult input_path e := by
  simp [process_single_volume, process_single_volume_sequential, hv, hseq, failureResult]

/-- C7: every pipeline-level failure — a volume load error, a validation
failure, or an exception escaping the sequential processing loop — is
recovered into a returned PipelineResult with success false, the failure
message, and no output meshes; no exception escapes the driver. -/
theorem C7_pipeline_failure_recovered (use_parallel : Bool)
    (cfg : PreprocessingConfig) (threshold : Nat)
    (loadResult : Except String Arr3) (validate : Arr3 → Bool)
    (extract : Arr3 → Nat → Except String Int)
    (input_path output_dir : String) (elapsed : Nat) :
    (∀ e, loadResult = Except.error e →
        process_single_volume use_parallel cfg threshold loadResult validate extract
            input_path output_dir elapsed
          = { input_path := input_path, output_meshes := [], processing_time := 0
            , mesh_quality := [], success := false, error_message := e })
    ∧ (∀ data, loadResult = Except.ok data → validate data = false →
        process_single_volume use_parallel cfg threshold loadResult validate extract
            input_path output_dir elapsed
          = { input_path := input_path, output_meshes := [], processing_time := 0
            , mesh_quality := [], success := false
            , error_message := "Invalid data format" })
    ∧ (∀ data e, loadResult = Except.ok data → validate data = true →
        use_parallel = false →
        sequential_loop cfg threshold extract output_dir
            (blockify cfg data none none none) = Except.error e →
        process_single_volume use_parallel cfg threshold loadResult validate extract
            input_path output_dir elapsed
          = { input_path := input_path, output_meshes := [], processing_time := 0
            , mesh_quality := [], success := false, error_message := e }) := by
  refine ⟨?_, ?_, ?_⟩
  · intro e he
    subst he
    exact pipeline_load_error_result use_parallel cfg threshold validate extract
      input_path output_dir elapsed e
  · intro data hd hv
    subst hd
    exact pipeline_invalid_data_result use_parallel cfg threshold data validate extract
      input_path output_dir elapsed hv
  · intro data e hd hv hp hseq
    subst hd
    subst hp
    exact pipeline_sequential_error_result cfg threshold data validate extract
      input_path output_dir elapsed e hv hseq

/-- Witness for C7 at a concrete load failure. -/
theorem C7_pipeline_failure_recovered_witness :
    process_single_volume true defaultConfig 0 (Except.error "boom") (fun _ => true)
        (fun _ _ => Except.ok 0) "in" "out" 7
      = { input_path := "in", output_meshes := [], processing_time := 0
        , mesh_quality := [], success := false, error_message := "boom" } :=
  (C7_pipeline_failure_recovered true defaultConfig 0 (Except.error "boom")
    (fun _ => true) (fun _ _ => Except.ok 0) "in" "out" 7).1 "boom" rfl

/-- C8: for a fixed volume and configuration, the sequential and parallel
paths assign the identical block index to the identical block (both
enumerate the same `blockify` output in the same order) and, when both
succeed, report the identical total_blocks count. -/
theorem C8_sequential_parallel_agree (cfg : PreprocessingConfig) (threshold : Nat)
    (loadResult : Except String Arr3) (validate : Arr3 → Bool)
    (extract : Arr3 → Nat → Except String Int)
    (input_path output_dir : String) (elapsed : Nat) (data : Arr3)
    (collected : List String × Nat)
    (hload : loadResult = Except.ok data) (hvalid : validate data = true)
    (hseq : sequential_loop cfg threshold extract output_dir
        (blockify cfg data none none none) = Except.ok collected) :
    (parallel_task_assignment cfg data
      = (sequential_task_assignment cfg data).map (fun q => (q.2, q.1)))
    ∧ (List.lookup "total_blocks"
        (process_single_volume_parallel cfg threshold loadResult validate extract
          input_path output_dir elapsed).mesh_quality
      = List.lookup "total_blocks"
          (process_single_volume_sequential cfg threshold loadResult validate extract
            input_path output_dir elapsed).mesh_quality) := by
  subst hload
  refine ⟨rfl, ?_⟩
  have hpar : process_single_volume_parallel cfg threshold (Except.ok data) validate extract
        input_path output_dir elapsed
      = { input_path := input_path
        , output_meshes :=
            (collect_results (volume_results cfg threshold extract output_dir data)).1
        , processing_time := elapsed
        , mesh_quality :=
            [("total_blocks", (blockify cfg data none none none).length),
             ("watertight_blocks",
              (collect_results (volume_results cfg threshold extract output_dir data)).2)]
        , success := true
        , error_message := "" } := by
    rw [process_single_volume_parallel, hvalid]
    rfl
  have hsq : process_single_volume_sequential cfg threshold (Except.ok data) validate extract
        input_path output_dir elapsed
      = { input_path := input_path
        , output_meshes := collected.1
        , processing_time := elapsed
        , mesh_quality :=
            [("total_blocks", (blockify cfg data none none none).length),
             ("watertight_blocks", collected.2)]
        , success := true
        , error_message := "" } := by
    rw [process_single_volume_sequential, hvalid]
    simp [hseq]
  rw [hpar, hsq]
  rfl

/-- Witness for C8 on a one-block volume with a succeeding extraction stub. -/
theorem C8_sequential_parallel_agree_witness :
    List.lookup "total_blocks"
        (process_single_volume_parallel cfgB 0 (Except.ok vol111) (fun _ => true)
          (fun _ _ => Except.ok 0) "in" "out" 5).mesh_quality
      = List.lookup "total_blocks"
          (process_single_volume_sequential cfgB 0 (Except.ok vol111) (fun _ => true)
            (fun _ _ => Except.ok 0) "in" "out" 5).mesh_quality :=
  (C8_sequential_parallel_agree cfgB 0 (Except.ok vol111) (fun _ => true)
    (fun _ _ => Except.ok 0) "in" "out" 5 vol111 (["out/block_0000.stl"], 1)
    rfl rfl rfl).2

/-- C10: every pipeline-level failure yields a PipelineResult whose
mesh_quality dict is empty — reading total_blocks or watertight_blocks from
it finds no key — and whose processing_time is 0. -/
theorem C10_failure_quality_empty (use_parallel : Bool)
    (cfg : PreprocessingConfig) (threshold : Nat)
    (loadResult : Except String Arr3) (validate : Arr3 → Bool)
    (extract : Arr3 → Nat → Except String Int)
    (input_path output_dir : String) (elapsed : Nat) :
    (∀ e, loadResult = Except.error e →
        (process_single_volume use_parallel cfg threshold loadResult validate extract
            input_path output_dir elapsed).mesh_quality = []
        ∧ List.lookup "total_blocks"
            (process_single_volume use_parallel cfg threshold loadResult validate extract
              input_path output_dir elapsed).mesh_quality = none
        ∧ List.lookup "watertight_blocks"
            (process_single_volume use_parallel cfg threshold loadResult validate extract
              input_path output_dir elapsed).mesh_quality = none
        ∧ (process_single_volume use_parallel cfg threshold loadResult validate extract
            input_path output_dir elapsed).processing_time = 0)
    ∧ (∀ data, loadResult = Except.ok data → validate data = false →
        (process_single_volume use_parallel cfg threshold loadResult validate extract
            input_path output_dir elapsed).mesh_quality = []
        ∧ List.lookup "total_blocks"
            (process_single_volume use_parallel cfg threshold loadResult validate extract
              input_path output_dir elapsed).mesh_quality = none
        ∧ List.lookup "watertight_blocks"
            (process_single_volume use_parallel cfg threshold loadResult validate extract
              input_path output_dir elapsed).mesh_quality = none
        ∧ (process_single_volume use_parallel cfg threshold loadResult validate extract
            input_path output_dir elapsed).processing_time = 0)
    ∧ (∀ data e, loadResult = Except.ok data → validate data = true →
        use_parallel = false →
        sequential_loop cfg threshold extract output_dir
            (blockify cfg data none none none) = Except.error e →
        (process_single_volume use_parallel cfg threshold loadResult validate extract
            input_path output_dir elapsed).mesh_quality = []
        ∧ (process_single_volume use_parallel cfg threshold loadResult validate extract
            input_path output_dir elapsed).processing_time = 0) := by
  refine ⟨?_, ?_, ?_⟩
  · intro e he
    subst he
    rw [pipeline_load_error_result use_parallel cfg threshold validate extract
      input_path output_dir elapsed e]
    exact ⟨rfl, rfl, rfl, rfl⟩
  · intro data hd hv
    subst hd
    rw [pipeline_invalid_data_result use_parallel cfg threshold data validate extract
      input_path output_dir elapsed hv]
    exact ⟨rfl, rfl, rfl, rfl⟩
  · intro data e hd hv hp hseq
    subst hd
    subst hp
    rw [pipeline_sequential_error_result cfg threshold data validate extract
      input_path output_dir elapsed e hv hseq]
    exact ⟨rfl, rfl⟩

/-- Witness for C10 at a concrete load failure. -/
theorem C10_failure_quality_empty_witness :
    (process_single_volume true defaultConfig 0 (Except.error "boom") (fun _ => true)
        (fun _ _ => Except.ok 0) "in" "out" 7).mesh_quality = []
    ∧ List.lookup "total_blocks"
        (process_single_volume true defaultConfig 0 (Except.error "boom") (fun _ => true)
          (fun _ _ => Except.ok 0) "in" "out" 7).mesh_quality = none
    ∧ List.lookup "watertight_blocks"
        (process_single_volume true defaultConfig 0 (Except.error "boom") (fun _ => true)
          (fun _ _ => Except.ok 0) "in" "out" 7).mesh_quality = none
    ∧ (process_single_volume true defaultConfig 0 (Except.error "boom") (fun _ => true)
        (fun _ _ => Except.ok 0) "in" "out" 7).processing_time = 0 :=
  (C10_failure_quality_empty true defaultConfig 0 (Except.error "boom") (fun _ => true)
    (fun _ _ => Except.ok 0) "in" "out" 7).1 "boom" rfl

end PoreMesh
